import Mathlib

/-!
Shallow embedding of `td/utils/port/FileFd.cpp` (the FileHandle core of the
spec): open-flag validation and description, translation of open flags to the
native creation request on both the POSIX and the Windows branch, the
read/write/pread/pwrite error classification and readiness bookkeeping, the
advisory-lock retry loop, and the handle lifecycle (close / empty /
move_as_native_fd).

Machine integers are modelled as `Nat`/`Int`; bitmasks as `Nat` with the
bitwise operations.  Syscall outcomes (the return value of `::open`,
`::read`, `fcntl`, ... and the accompanying `errno`) are parameters of the
embedded functions, so every code path is a pure function of the handle state
and of the syscall outcomes it observes.
-/

namespace td

/-- Open flag bit values.  The enumerators `Write`, `Read`, `Truncate`,
`Create`, `Append`, `CreateNew` live in `FileFd.h`.  Modelled from the spec:
the header is not part of the sources; the spec fixes the flags as a bitmask
over six enumerated values (an internal protocol, the concrete bit values are
unobservable), so they are modelled as six distinct bits. -/
def Write : Nat := 1

def Read : Nat := 2

def Truncate : Nat := 4

def Create : Nat := 8

def Append : Nat := 16

def CreateNew : Nat := 32

/-- The union of all enumerated flag bits, as in
`Write | Read | Truncate | Create | Append | CreateNew` (FileFd.cpp:98). -/
def knownMask : Nat := Write ||| Read ||| Truncate ||| Create ||| Append ||| CreateNew

/-- Bit test `flags & bit` as used throughout `FileFd.cpp`. -/
def hasFlag (flags bit : Nat) : Bool := flags &&& bit != 0

/-- The test `flags & ~(Write | Read | Truncate | Create | Append | CreateNew)`
(FileFd.cpp:43-44 and 98): `flags` holds a bit outside the enumerated set.
Over the unsigned bit pattern this is equivalent to `flags &&& knownMask ≠
flags`. -/
def hasUnknownBits (flags : Nat) : Bool := flags &&& knownMask != flags

/-- `operator<<(StringBuilder &, PrintFlags)` (FileFd.cpp:41-78): renders an
open-flags bitmask as a human-readable clause for error messages. -/
def printFlags (flags : Nat) : String :=
  if hasUnknownBits flags then
    "opened with invalid flags " ++ toString flags
  else
    (if hasFlag flags Create then "opened/created "
     else if hasFlag flags CreateNew then "created "
     else "opened ") ++
    (if hasFlag flags Write && hasFlag flags Read then
       (if hasFlag flags Append then "for reading and appending"
        else "for reading and writing")
     else if hasFlag flags Write then
       (if hasFlag flags Append then "for appending" else "for writing")
     else if hasFlag flags Read then "for reading"
     else "for nothing") ++
    (if hasFlag flags Truncate then " with truncation" else "")

/-- Readiness flags of a handle.  Modelled from the spec: `PollFlags` /
`PollableFdInfo` live in `port/detail/PollableFd.h`, which is not part of the
sources; the spec describes ReadinessState as a mutable set of
{Readable, Writable} flags. -/
structure PollFlagsState where
  readable : Bool
  writable : Bool
deriving DecidableEq, Repr

/-- The poll bookkeeping owned by a `FileFdImpl`: the native descriptor plus
the readiness flags.  Modelled from the spec: `PollableFdInfo` owns exactly
one NativeHandle (here the raw descriptor value) and the readiness flags. -/
structure PollableFdInfo where
  fd : Nat
  flags : PollFlagsState
deriving DecidableEq, Repr

/-- `detail::FileFdImpl` (FileFd.cpp:83-86): holds one `PollableFdInfo`. -/
structure FileFdImpl where
  info : PollableFdInfo
deriving DecidableEq, Repr

/-- `FileFd`: owns `impl_ : std::unique_ptr<detail::FileFdImpl>`; the null
pointer (default-constructed or closed handle) is `none`. -/
structure FileFd where
  impl : Option FileFdImpl
deriving DecidableEq, Repr

/-- Entry outcome of an operation on a handle: either execution aborts on a
contract violation (an explicit `CHECK(!empty())` failure, or the fatal
dereference `impl_->info` of the null `impl_` in `get_poll_info`,
FileFd.cpp:510-515), or the operation proceeds and produces `a`. -/
inductive OpEntry (α : Type) where
  | contractViolation
  | proceeds (a : α)
deriving DecidableEq, Repr

/-- `FileFd::empty` (FileFd.cpp:414-416): `!impl_`. -/
def FileFd.empty (f : FileFd) : Bool := f.impl.isNone

/-- `FileFd::close` (FileFd.cpp:410-412): `impl_.reset()`. -/
def FileFd.close (_f : FileFd) : FileFd := ⟨none⟩

/-- The descriptor a handle currently holds, if any (via
`get_poll_info().native_fd()`, FileFd.cpp:418-420). -/
def FileFd.heldFd (f : FileFd) : Option Nat := f.impl.map (fun i => i.info.fd)

/-- `FileFd::move_as_native_fd` (FileFd.cpp:422-426): moves the native
descriptor out of the poll info (modelled from the spec: NativeHandle is
move-only, so the moved-from info no longer owns it), then `impl_.reset()`.
On an empty handle `get_poll_info()` dereferences the null `impl_`. -/
def FileFd.move_as_native_fd (f : FileFd) : OpEntry (Nat × FileFd) :=
  match f.impl with
  | none => .contractViolation
  | some impl => .proceeds (impl.info.fd, ⟨none⟩)

/-- `FileFd::from_native_fd` (FileFd.cpp:198-203): fresh impl,
`set_native_fd`, then `add_flags(PollFlags::Write())`.  Modelled from the
spec: a freshly constructed ReadinessState has no flags set ("Readable is
left unset until first I/O proves otherwise"); `add_flags` adds the given
flags to the set. -/
def FileFd.from_native_fd (fd : Nat) : FileFd :=
  ⟨some ⟨⟨fd, ⟨false, true⟩⟩⟩⟩

/-- Readable flag of a handle (false when the handle is empty). -/
def FileFd.readableFlag (f : FileFd) : Bool :=
  match f.impl with
  | none => false
  | some impl => impl.info.flags.readable

/-- Writable flag of a handle (false when the handle is empty). -/
def FileFd.writableFlag (f : FileFd) : Bool :=
  match f.impl with
  | none => false
  | some impl => impl.info.flags.writable

/-- Result of the validation-and-translation stage of `FileFd::open`
(FileFd.cpp:97-131): either a validation error with its message (returned
before any filesystem syscall), or the native open request is issued. -/
inductive OpenPrep where
  | validationError (msg : String)
  | issue (nativeFlags : Nat)
deriving DecidableEq, Repr

/-- POSIX native open flag values (from `<fcntl.h>`, Linux values; only their
distinctness matters to the embedding). -/
def O_RDONLY : Nat := 0

def O_WRONLY : Nat := 1

def O_RDWR : Nat := 2

def O_CREAT : Nat := 64

def O_EXCL : Nat := 128

def O_TRUNC : Nat := 512

def O_APPEND : Nat := 1024

/-- The POSIX flag translation of `FileFd::open` (FileFd.cpp:107-131):
access mode, `O_TRUNC`, `O_CREAT` / `O_CREAT|O_EXCL`, `O_APPEND`. -/
def posixNativeFlags (flags : Nat) : Nat :=
  (if hasFlag flags Write && hasFlag flags Read then O_RDWR
   else if hasFlag flags Write then O_WRONLY
   else O_RDONLY) |||
  (if hasFlag flags Truncate then O_TRUNC else 0) |||
  (if hasFlag flags Create then O_CREAT
   else if hasFlag flags CreateNew then O_CREAT ||| O_EXCL
   else 0) |||
  (if hasFlag flags Append then O_APPEND else 0)

/-- `FileFd::open` up to the first filesystem syscall (FileFd.cpp:97-133):
two validation checks, each returning a `Status::Error` whose message embeds
the rendered `PrintFlags{flags}` clause, then the translated native request
is issued. -/
def open_prepare (filepath : String) (flags : Nat) : OpenPrep :=
  if hasUnknownBits flags then
    .validationError ("File \"" ++ filepath ++ "\" has failed to be " ++ printFlags flags)
  else if flags &&& (Write ||| Read) == 0 then
    .validationError ("File \"" ++ filepath ++ "\" can't be " ++ printFlags flags)
  else
    .issue (posixNativeFlags flags)

/-- Overall result of `FileFd::open` on the POSIX branch, given the result
`sysRes` of the `::open` syscall (the new descriptor, or negative on
failure). -/
inductive OpenResult where
  | validationError (msg : String)
  | osError (msg : String)
  | ok (f : FileFd)
deriving DecidableEq, Repr

/-- `FileFd::open`, POSIX branch (FileFd.cpp:97-138): validation, native
flag translation, the `::open` syscall (its result is the parameter
`sysRes`), then `from_native_fd` on success. -/
def open_file (filepath : String) (flags : Nat) (sysRes : Int) : OpenResult :=
  match open_prepare filepath flags with
  | .validationError msg => .validationError msg
  | .issue _ =>
    if sysRes < 0 then
      .osError ("File \"" ++ filepath ++ "\" can't be " ++ printFlags flags)
    else
      .ok (FileFd.from_native_fd sysRes.toNat)

/-- The Windows creation dispositions (FileFd.cpp:159-174) and, on the POSIX
side, the creation behaviour a native flag word denotes. -/
inductive CreationDisposition where
  | CREATE_ALWAYS
  | OPEN_ALWAYS
  | CREATE_NEW
  | TRUNCATE_EXISTING
  | OPEN_EXISTING
deriving DecidableEq, Repr

/-- The `creation_disposition` cascade of `FileFd::open`, Windows branch
(FileFd.cpp:159-174). -/
def winCreationDisposition (flags : Nat) : CreationDisposition :=
  if hasFlag flags Create then
    if hasFlag flags Truncate then .CREATE_ALWAYS else .OPEN_ALWAYS
  else if hasFlag flags CreateNew then .CREATE_NEW
  else if hasFlag flags Truncate then .TRUNCATE_EXISTING
  else .OPEN_EXISTING

/-- The creation disposition a POSIX native flag word denotes, per open(2):
`O_CREAT|O_EXCL` is create-exclusive (fails if the target exists);
`O_CREAT` with `O_TRUNC` is create-or-truncate; `O_CREAT` alone is
create-or-open; `O_TRUNC` alone truncates an existing file only; neither
opens an existing file only. -/
def posixDisposition (native : Nat) : CreationDisposition :=
  if hasFlag native O_CREAT then
    if hasFlag native O_EXCL then .CREATE_NEW
    else if hasFlag native O_TRUNC then .CREATE_ALWAYS
    else .OPEN_ALWAYS
  else if hasFlag native O_TRUNC then .TRUNCATE_EXISTING
  else .OPEN_EXISTING

/-- POSIX errno values (Linux): on this target `EAGAIN` and `EWOULDBLOCK`
coincide, which is why FileFd.cpp guards the extra comparison with
`#if EAGAIN != EWOULDBLOCK`. -/
def EAGAIN : Nat := 11

def EWOULDBLOCK : Nat := 11

def EIO : Nat := 5

/-- The logging guard of the POSIX error paths of write, read, pwrite and
pread (FileFd.cpp:215-219, 248-252, 285-289, 323-327, textually identical at
the four sites): the error is logged at error severity unless errno is one
of EAGAIN, EWOULDBLOCK, EIO. -/
def posix_io_logs (e : Nat) : Bool :=
  e != EAGAIN && e != EWOULDBLOCK && e != EIO

/-- The errno values the spec classifies as transient (returned without
logging): would-block, resource-temporarily-unavailable and the third code
of the set, EIO. -/
def is_transient_errno (e : Nat) : Bool :=
  e == EAGAIN || e == EWOULDBLOCK || e == EIO

/-- Outcome of a sequential or positioned I/O operation: the byte count on
success, or the errno together with whether the error was logged before the
result was returned. -/
inductive IOOutcome where
  | ok (bytes : Nat)
  | ioError (errCode : Nat) (logged : Bool)
deriving DecidableEq, Repr

/-- Clear the Readable flag:
`get_poll_info().clear_flags(PollFlags::Read())` (FileFd.cpp:242, 264).
Modelled from the spec: `clear_flags` removes the given flags from the
ReadinessState set. -/
def FileFd.clearReadable (f : FileFd) : FileFd :=
  match f.impl with
  | none => ⟨none⟩
  | some impl => ⟨some ⟨⟨impl.info.fd, ⟨false, impl.info.flags.writable⟩⟩⟩⟩

/-- `FileFd::write`, POSIX branch (FileFd.cpp:205-222): `get_native_fd()`
dereferences the handle, then the `::write` syscall (result `sysRes`, errno
`sysErrno`); nonnegative results are returned as byte counts, failures are
logged unless the errno is transient. -/
def FileFd.write (f : FileFd) (sysRes : Int) (sysErrno : Nat) : OpEntry IOOutcome :=
  match f.impl with
  | none => .contractViolation
  | some _ =>
    if 0 ≤ sysRes then .proceeds (.ok sysRes.toNat)
    else .proceeds (.ioError sysErrno (posix_io_logs sysErrno))

/-- `FileFd::read`, POSIX branch (FileFd.cpp:234-255): like `write`, and on
a successful transfer of fewer bytes than the buffer size the Readable flag
is cleared before returning. -/
def FileFd.read (f : FileFd) (bufSize : Nat) (sysRes : Int) (sysErrno : Nat) :
    OpEntry (IOOutcome × FileFd) :=
  match f.impl with
  | none => .contractViolation
  | some _ =>
    if 0 ≤ sysRes then
      if sysRes.toNat < bufSize then .proceeds (.ok sysRes.toNat, f.clearReadable)
      else .proceeds (.ok sysRes.toNat, f)
    else .proceeds (.ioError sysErrno (posix_io_logs sysErrno), f)

/-- `FileFd::read`, Windows branch (FileFd.cpp:256-267): `ReadFile` on a
buffer of `bufSize` bytes; on failure `OS_ERROR` with the last-error code,
unlogged and unclassified; on success the Readable flag is cleared only when
`bytes_read == 0`. -/
def FileFd.read_win (f : FileFd) (_bufSize : Nat) (winOk : Bool) (lastError : Nat)
    (bytes_read : Nat) : OpEntry (IOOutcome × FileFd) :=
  match f.impl with
  | none => .contractViolation
  | some _ =>
    if winOk then
      if bytes_read == 0 then .proceeds (.ok bytes_read, f.clearReadable)
      else .proceeds (.ok bytes_read, f)
    else .proceeds (.ioError lastError false, f)

/-- Modelled from the spec: `narrow_cast_safe<off_t>` (td/utils/misc.h, not
part of the sources) range-checks a value against the width of the target
integer type and fails, rather than truncating, when it does not fit.
`bits` is the bit width of the native signed offset type `off_t`. -/
def narrow_cast_safe (bits : Nat) (x : Int) : Except Unit Int :=
  if -(2 ^ (bits - 1) : Int) ≤ x ∧ x < 2 ^ (bits - 1) then .ok x else .error ()

/-- Outcome of positioned I/O: validation error on a negative offset (before
any handle access or syscall), a conversion (narrowing) error when the offset
does not fit the native offset type, or the syscall issued at the unchanged
offset. -/
inductive PIOOutcome where
  | validationError (msg : String)
  | castError
  | syscalled (offset : Int) (res : IOOutcome)
deriving DecidableEq, Repr

/-- `FileFd::pwrite`, POSIX branch (FileFd.cpp:270-292): the `offset < 0`
check precedes the handle dereference; then `narrow_cast_safe<off_t>`, then
the `::pwrite` syscall, with the same error classification as `write`. -/
def FileFd.pwrite (f : FileFd) (offBits : Nat) (offset : Int) (sysRes : Int)
    (sysErrno : Nat) : OpEntry PIOOutcome :=
  if offset < 0 then .proceeds (.validationError "Offset must be non-negative")
  else
    match f.impl with
    | none => .contractViolation
    | some _ =>
      match narrow_cast_safe offBits offset with
      | .error _ => .proceeds .castError
      | .ok off =>
        if 0 ≤ sysRes then .proceeds (.syscalled off (.ok sysRes.toNat))
        else .proceeds (.syscalled off (.ioError sysErrno (posix_io_logs sysErrno)))

/-- `FileFd::pread`, POSIX branch (FileFd.cpp:308-330): same structure as
`pwrite`. -/
def FileFd.pread (f : FileFd) (offBits : Nat) (offset : Int) (sysRes : Int)
    (sysErrno : Nat) : OpEntry PIOOutcome :=
  if offset < 0 then .proceeds (.validationError "Offset must be non-negative")
  else
    match f.impl with
    | none => .contractViolation
    | some _ =>
      match narrow_cast_safe offBits offset with
      | .error _ => .proceeds .castError
      | .ok off =>
        if 0 ≤ sysRes then .proceeds (.syscalled off (.ok sysRes.toNat))
        else .proceeds (.syscalled off (.ioError sysErrno (posix_io_logs sysErrno)))

/-- Outcome of one native lock attempt (`fcntl(F_SETLK)` on POSIX,
`LockFileEx`/`UnlockFileEx` on Windows): success, a lock-held-elsewhere
indication (errno EAGAIN resp. ERROR_LOCK_VIOLATION), or any other native
failure with its error code. -/
inductive LockAttempt where
  | success
  | contention
  | failure (e : Nat)
deriving DecidableEq, Repr

/-- Result of `FileFd::lock` as classified by FileFd.cpp:346-407:
`validationError` for `max_tries <= 0`; `lockContention` for the dedicated
"already in use; check for another program instance running" error after the
attempts are exhausted; `osError` for any other native failure. -/
inductive LockResult where
  | ok
  | validationError
  | lockContention
  | osError (e : Nat)
deriving DecidableEq, Repr

/-- Observable trace of a `lock` call: its result, the number of native
lock attempts issued, and the total microseconds slept
(`usleep_for(100000)` per retry, FileFd.cpp:397). -/
structure LockTrace where
  result : LockResult
  attempts : Nat
  sleepUs : Nat
deriving DecidableEq, Repr

/-- The retry loop of `FileFd::lock` (FileFd.cpp:355-407) with `m` the
remaining `max_tries` counter and `att i` the outcome of the i-th native
attempt: success and non-contention failures return at once; on contention
the counter is decremented and, if attempts remain, the thread sleeps 100 ms
and retries.  The loop is entered with `m ≥ 1` (`max_tries <= 0` is rejected
beforehand); the `m = 0` equation is never reached. -/
def lockLoop (att : Nat → LockAttempt) : Nat → Nat → LockTrace
  | 0, _ => ⟨.lockContention, 0, 0⟩
  | 1, i =>
    match att i with
    | .success => ⟨.ok, 1, 0⟩
    | .failure e => ⟨.osError e, 1, 0⟩
    | .contention => ⟨.lockContention, 1, 0⟩
  | m + 2, i =>
    match att i with
    | .success => ⟨.ok, 1, 0⟩
    | .failure e => ⟨.osError e, 1, 0⟩
    | .contention =>
      let t := lockLoop att (m + 1) (i + 1)
      ⟨t.result, t.attempts + 1, t.sleepUs + 100000⟩

/-- `FileFd::lock` (FileFd.cpp:346-407): the `max_tries <= 0` validation
precedes the handle dereference (`get_native_fd()`, FileFd.cpp:351). -/
def FileFd.lock (f : FileFd) (att : Nat → LockAttempt) (max_tries : Int) :
    OpEntry LockTrace :=
  if max_tries ≤ 0 then .proceeds ⟨.validationError, 0, 0⟩
  else
    match f.impl with
    | none => .contractViolation
    | some _ => .proceeds (lockLoop att max_tries.toNat 0)

/-- Result of `sync` (and of the other status-returning operations):
`Status::OK()` or an `OS_ERROR`. -/
inductive StatusResult where
  | ok
  | osError (msg : String)
deriving DecidableEq, Repr

/-- `FileFd::stat` (FileFd.cpp:439-442, POSIX branch): `CHECK(!empty())`
then `fstat` on the held descriptor (the metadata itself is produced by the
external `detail::fstat`); the model yields the descriptor queried. -/
def FileFd.stat (f : FileFd) : OpEntry Nat :=
  match f.impl with
  | none => .contractViolation
  | some impl => .proceeds impl.info.fd

/-- `FileFd::sync` (FileFd.cpp:471-481): `CHECK(!empty())`, `fsync`, and
`OS_ERROR("Sync failed")` on a nonzero result. -/
def FileFd.sync (f : FileFd) (sysRes : Int) : OpEntry StatusResult :=
  match f.impl with
  | none => .contractViolation
  | some _ => .proceeds (if sysRes != 0 then .osError "Sync failed" else .ok)

/-- Result of `seek`/`truncate_to_current_position`: a conversion error from
`narrow_cast_safe`, success at the converted position, or an OS error. -/
inductive SeekResult where
  | castError
  | ok (position : Int)
  | osError (msg : String)
deriving DecidableEq, Repr

/-- `FileFd::seek` (FileFd.cpp:483-496, POSIX branch): `CHECK(!empty())`,
`narrow_cast_safe<off_t>(position)`, then `lseek` (result `sysRes`). -/
def FileFd.seek (f : FileFd) (offBits : Nat) (position : Int) (sysRes : Int) :
    OpEntry SeekResult :=
  match f.impl with
  | none => .contractViolation
  | some _ =>
    match narrow_cast_safe offBits position with
    | .error _ => .proceeds .castError
    | .ok p => .proceeds (if sysRes < 0 then .osError "Seek failed" else .ok p)

/-- `FileFd::truncate_to_current_position` (FileFd.cpp:498-509, POSIX
branch): `CHECK(!empty())`, `narrow_cast_safe<off_t>(current_position)`,
then `ftruncate` (result `sysRes`). -/
def FileFd.truncate_to_current_position (f : FileFd) (offBits : Nat)
    (current_position : Int) (sysRes : Int) : OpEntry SeekResult :=
  match f.impl with
  | none => .contractViolation
  | some _ =>
    match narrow_cast_safe offBits current_position with
    | .error _ => .proceeds .castError
    | .ok p => .proceeds (if sysRes < 0 then .osError "Truncate failed" else .ok p)

/-- A concrete non-empty handle (descriptor 3, freshly opened readiness
state), used to instantiate the theorems about non-empty handles. -/
def sampleImpl : FileFdImpl := ⟨⟨3, ⟨false, true⟩⟩⟩

/-- A concrete handle whose ReadinessState currently has Readable set (as
after the reactor observed read readiness), used to exhibit the
readiness-clearing behaviour of `read`. -/
def readableHandle : FileFd := ⟨some ⟨⟨3, ⟨true, true⟩⟩⟩⟩

/-- Claim C1: for every flags value with a bit outside
{Read, Write, Truncate, Create, Append, CreateNew}, or with neither Read nor
Write set, `open` returns a validation error whose message embeds the
rendered flag description, before issuing any filesystem syscall (the result
is produced by `open_prepare`, independently of any syscall outcome
`sysRes`). -/
theorem open_invalid_flags_validation (filepath : String) (flags : Nat)
    (h : hasUnknownBits flags = true ∨ flags &&& (Write ||| Read) = 0) :
    ∃ msg, open_prepare filepath flags = .validationError msg ∧
      (∃ p, msg = p ++ printFlags flags) ∧
      ∀ sysRes : Int, open_file filepath flags sysRes = .validationError msg := by
  rcases h with h | h
  · refine ⟨"File \"" ++ filepath ++ "\" has failed to be " ++ printFlags flags, ?_, ?_, ?_⟩
    · simp [open_prepare, h]
    · exact ⟨"File \"" ++ filepath ++ "\" has failed to be ", by simp⟩
    · intro sysRes
      simp [open_file, open_prepare, h]
  · by_cases hu : hasUnknownBits flags = true
    · refine ⟨"File \"" ++ filepath ++ "\" has failed to be " ++ printFlags flags, ?_, ?_, ?_⟩
      · simp [open_prepare, hu]
      · exact ⟨"File \"" ++ filepath ++ "\" has failed to be ", by simp⟩
      · intro sysRes
        simp [open_file, open_prepare, hu]
    · refine ⟨"File \"" ++ filepath ++ "\" can't be " ++ printFlags flags, ?_, ?_, ?_⟩
      · simp [open_prepare, hu, h]
      · exact ⟨"File \"" ++ filepath ++ "\" can't be ", by simp⟩
      · intro sysRes
        simp [open_file, open_prepare, hu, h]

/-- Witness for C1: flag value 64 is outside the enumerated set, and `open`
rejects it with the rendered description, whatever the would-be syscall
result. -/
theorem open_invalid_flags_validation_witness :
    (hasUnknownBits 64 = true ∨ 64 &&& (Write ||| Read) = 0) ∧
      ∃ msg, open_prepare "f" 64 = .validationError msg ∧
        (∃ p, msg = p ++ printFlags 64) ∧
        ∀ sysRes : Int, open_file "f" 64 sysRes = .validationError msg :=
  ⟨Or.inl (by decide), open_invalid_flags_validation "f" 64 (Or.inl (by decide))⟩

/-- Claim C8: every handle produced by a successful `open` or by
`from_native_fd` starts with the Writable flag set and the Readable flag
unset in its readiness state. -/
theorem open_initial_readiness :
    (∀ fd : Nat, (FileFd.from_native_fd fd).writableFlag = true ∧
      (FileFd.from_native_fd fd).readableFlag = false) ∧
    ∀ (filepath : String) (flags : Nat) (sysRes : Int) (g : FileFd),
      open_file filepath flags sysRes = .ok g →
      g.writableFlag = true ∧ g.readableFlag = false := by
  constructor
  · intro fd
    exact ⟨rfl, rfl⟩
  · intro filepath flags sysRes g h
    unfold open_file at h
    rcases hp : open_prepare filepath flags with msg | nf
    · rw [hp] at h
      exact absurd h (by simp)
    · rw [hp] at h
      by_cases hs : sysRes < 0
      · rw [if_pos hs] at h
        exact absurd h (by simp)
      · rw [if_neg hs] at h
        have hg : g = FileFd.from_native_fd sysRes.toNat := by
          have := h.symm
          injection this
        subst hg
        exact ⟨rfl, rfl⟩

/-- Witness for C8: a concrete successful open (flags = Read|Write = 3,
descriptor 5) yields a handle that is Writable and not Readable. -/
theorem open_initial_readiness_witness :
    (FileFd.from_native_fd 5).writableFlag = true ∧
      (FileFd.from_native_fd 5).readableFlag = false :=
  open_initial_readiness.2 "f" 3 5 (FileFd.from_native_fd 5) rfl

/-- Claim C9: `close` is idempotent: after `close` the handle is empty,
closing a closed handle changes nothing, and `close` on an already-empty
handle is a no-op (the handle is unchanged; `close` is total and returns no
error). -/
theorem close_idempotent (f : FileFd) :
    (f.close).empty = true ∧ (f.close).close = f.close ∧
      (f.empty = true → f.close = f) := by
  refine ⟨rfl, rfl, ?_⟩
  intro h
  rcases f with ⟨_ | i⟩
  · rfl
  · simp [FileFd.empty, Option.isNone] at h

/-- Witness for C9: the default (empty) handle: closing it is a no-op. -/
theorem close_idempotent_witness :
    ((⟨none⟩ : FileFd).close).empty = true ∧
      ((⟨none⟩ : FileFd).close).close = (⟨none⟩ : FileFd).close ∧
      (⟨none⟩ : FileFd).close = ⟨none⟩ :=
  ⟨(close_idempotent ⟨none⟩).1, (close_idempotent ⟨none⟩).2.1,
   (close_idempotent ⟨none⟩).2.2 rfl⟩

/-- Claim C10: for every non-empty handle, `move_as_native_fd` hands out
exactly the descriptor the handle held and leaves the handle empty, so the
descriptor has a single owner at all times. -/
theorem move_as_native_fd_releases (f : FileFd) (h : f.empty = false) :
    ∃ fd rest, f.move_as_native_fd = .proceeds (fd, rest) ∧
      rest.empty = true ∧ f.heldFd = some fd := by
  rcases f with ⟨_ | i⟩
  · simp [FileFd.empty, Option.isNone] at h
  · exact ⟨i.info.fd, ⟨none⟩, rfl, rfl, rfl⟩

/-- Witness for C10: a handle on descriptor 7 yields 7 and becomes empty. -/
theorem move_as_native_fd_releases_witness :
    (FileFd.from_native_fd 7).empty = false ∧
      ∃ fd rest, (FileFd.from_native_fd 7).move_as_native_fd = .proceeds (fd, rest) ∧
        rest.empty = true ∧ (FileFd.from_native_fd 7).heldFd = some fd :=
  ⟨rfl, move_as_native_fd_releases (FileFd.from_native_fd 7) rfl⟩

/-- The logging guard of the four POSIX I/O error paths logs exactly the
errno values outside the transient set. -/
theorem posix_io_logs_eq_not_transient (e : Nat) :
    posix_io_logs e = !is_transient_errno e := by
  simp [posix_io_logs, is_transient_errno, bne, Bool.not_or]

/-- Claim C3: on every failing POSIX `read`, `write`, `pwrite` or `pread`
syscall (negative result), the error carries the observed errno and is
logged at error severity exactly when the errno lies outside the transient
set {EAGAIN = resource-temporarily-unavailable, EWOULDBLOCK = would-block,
EIO}; a transient errno is returned unlogged. -/
theorem io_error_classification (impl : FileFdImpl) (bufSize : Nat)
    (sysRes : Int) (e : Nat) (offBits : Nat) (offset : Int)
    (hfail : sysRes < 0) (hoff : 0 ≤ offset)
    (hfit : narrow_cast_safe offBits offset = .ok offset) :
    FileFd.write ⟨some impl⟩ sysRes e = .proceeds (.ioError e (!is_transient_errno e)) ∧
    FileFd.read ⟨some impl⟩ bufSize sysRes e =
      .proceeds (.ioError e (!is_transient_errno e), ⟨some impl⟩) ∧
    FileFd.pwrite ⟨some impl⟩ offBits offset sysRes e =
      .proceeds (.syscalled offset (.ioError e (!is_transient_errno e))) ∧
    FileFd.pread ⟨some impl⟩ offBits offset sysRes e =
      .proceeds (.syscalled offset (.ioError e (!is_transient_errno e))) := by
  have hns : ¬ 0 ≤ sysRes := not_le.mpr hfail
  have hnl : ¬ offset < 0 := not_lt.mpr hoff
  refine ⟨?_, ?_, ?_, ?_⟩ <;>
    simp [FileFd.write, FileFd.read, FileFd.pwrite, FileFd.pread, hns, hnl, hfit,
      posix_io_logs_eq_not_transient]

/-- Witness for C3: errno 13 (EACCES) is not transient, so the failing call
is logged; the same statement evaluated at a failing pwrite/pread at offset 5
with a 64-bit off_t. -/
theorem io_error_classification_witness :
    FileFd.write ⟨some sampleImpl⟩ (-1) 13 = .proceeds (.ioError 13 (!is_transient_errno 13)) ∧
    FileFd.read ⟨some sampleImpl⟩ 4 (-1) 13 =
      .proceeds (.ioError 13 (!is_transient_errno 13), ⟨some sampleImpl⟩) ∧
    FileFd.pwrite ⟨some sampleImpl⟩ 64 5 (-1) 13 =
      .proceeds (.syscalled 5 (.ioError 13 (!is_transient_errno 13))) ∧
    FileFd.pread ⟨some sampleImpl⟩ 64 5 (-1) 13 =
      .proceeds (.syscalled 5 (.ioError 13 (!is_transient_errno 13))) :=
  io_error_classification sampleImpl 4 (-1) 13 64 5 (by decide) (by decide)
    (by norm_num [narrow_cast_safe])

/-- Claim C5 counterexample: on the Windows read branch (FileFd.cpp:256-267,
one of the claim's cited code places) a successful `ReadFile` transferring
1 byte into a 2-byte buffer — fewer bytes than the buffer size — returns
with the handle unchanged: the Readable flag, set beforehand, is still set,
so it is not cleared before `read` returns as the claim states. -/
theorem read_win_short_read_keeps_readable :
    readableHandle.readableFlag = true ∧
      FileFd.read_win readableHandle 2 true 0 1 = .proceeds (.ok 1, readableHandle) ∧
      (readableHandle.clearReadable).readableFlag = false :=
  ⟨rfl, rfl, rfl⟩

/-- Claim C5 (amended): on the POSIX read path, every successful read
transferring fewer bytes than the buffer size (including zero bytes) clears
the Readable flag before returning, and a full read leaves the readiness
state unchanged; on the Windows read path only a zero-byte read clears
Readable — a short nonzero read leaves the flags untouched. -/
theorem read_short_clears_readable (impl : FileFdImpl) (bufSize : Nat)
    (sysRes : Int) (e : Nat) (lastError bytes_read : Nat) (hok : 0 ≤ sysRes) :
    (FileFd.clearReadable ⟨some impl⟩).readableFlag = false ∧
    (sysRes.toNat < bufSize →
      FileFd.read ⟨some impl⟩ bufSize sysRes e =
        .proceeds (.ok sysRes.toNat, FileFd.clearReadable ⟨some impl⟩)) ∧
    (¬ sysRes.toNat < bufSize →
      FileFd.read ⟨some impl⟩ bufSize sysRes e =
        .proceeds (.ok sysRes.toNat, ⟨some impl⟩)) ∧
    (bytes_read = 0 →
      FileFd.read_win ⟨some impl⟩ bufSize true lastError bytes_read =
        .proceeds (.ok bytes_read, FileFd.clearReadable ⟨some impl⟩)) ∧
    (bytes_read ≠ 0 →
      FileFd.read_win ⟨some impl⟩ bufSize true lastError bytes_read =
        .proceeds (.ok bytes_read, ⟨some impl⟩)) := by
  refine ⟨rfl, ?_, ?_, ?_, ?_⟩
  · intro hshort
    simp [FileFd.read, hok, hshort]
  · intro hfull
    simp [FileFd.read, hok, hfull]
  · intro hz
    simp [FileFd.read_win, hz]
  · intro hnz
    simp [FileFd.read_win, hnz]

/-- Witness for the amended C5: a POSIX read of 1 byte into a 2-byte buffer
on a handle with Readable set clears the flag; a Windows read of 1 byte into
the same buffer does not. -/
theorem read_short_clears_readable_witness :
    (FileFd.clearReadable ⟨some ⟨⟨3, ⟨true, true⟩⟩⟩⟩).readableFlag = false ∧
    FileFd.read ⟨some ⟨⟨3, ⟨true, true⟩⟩⟩⟩ 2 1 0 =
      .proceeds (.ok (1 : Int).toNat, FileFd.clearReadable ⟨some ⟨⟨3, ⟨true, true⟩⟩⟩⟩) ∧
    FileFd.read_win ⟨some ⟨⟨3, ⟨true, true⟩⟩⟩⟩ 2 true 0 1 =
      .proceeds (.ok 1, ⟨some ⟨⟨3, ⟨true, true⟩⟩⟩⟩) :=
  ⟨(read_short_clears_readable ⟨⟨3, ⟨true, true⟩⟩⟩ 2 1 0 0 1 (by decide)).1,
   (read_short_clears_readable ⟨⟨3, ⟨true, true⟩⟩⟩ 2 1 0 0 1 (by decide)).2.1 (by decide),
   (read_short_clears_readable ⟨⟨3, ⟨true, true⟩⟩⟩ 2 1 0 0 1 (by decide)).2.2.2.2 (by decide)⟩

/-- Claim C6: `pwrite` and `pread` reject a negative offset with a
validation error immediately — before the handle is dereferenced and
independently of any syscall outcome — while a nonnegative offset that does
not fit the signed native offset type (width `offBits`) yields the distinct
conversion error `castError`; an in-range offset reaches the syscall
unchanged (no silent truncation). -/
theorem pio_offset_validation (f : FileFd) (impl : FileFdImpl) (offBits : Nat)
    (offset : Int) (sysRes : Int) (e : Nat) :
    (∀ msg, (PIOOutcome.castError ≠ PIOOutcome.validationError msg)) ∧
    (offset < 0 →
      FileFd.pwrite f offBits offset sysRes e =
        .proceeds (.validationError "Offset must be non-negative") ∧
      FileFd.pread f offBits offset sysRes e =
        .proceeds (.validationError "Offset must be non-negative")) ∧
    (0 ≤ offset → 2 ^ (offBits - 1) ≤ offset →
      FileFd.pwrite ⟨some impl⟩ offBits offset sysRes e = .proceeds .castError ∧
      FileFd.pread ⟨some impl⟩ offBits offset sysRes e = .proceeds .castError) ∧
    (0 ≤ offset → offset < 2 ^ (offBits - 1) → 0 ≤ sysRes →
      FileFd.pwrite ⟨some impl⟩ offBits offset sysRes e =
        .proceeds (.syscalled offset (.ok sysRes.toNat)) ∧
      FileFd.pread ⟨some impl⟩ offBits offset sysRes e =
        .proceeds (.syscalled offset (.ok sysRes.toNat))) := by
  refine ⟨(fun msg h => by cases h), ?_, ?_, ?_⟩
  · intro hneg
    constructor <;> simp [FileFd.pwrite, FileFd.pread, hneg]
  · intro hnn hbig
    have hnl : ¬ offset < 0 := not_lt.mpr hnn
    have hcast : narrow_cast_safe offBits offset = .error () := by
      simp [narrow_cast_safe, not_lt.mpr hbig]
    constructor <;> simp [FileFd.pwrite, FileFd.pread, hnl, hcast]
  · intro hnn hfit hsys
    have hnl : ¬ offset < 0 := not_lt.mpr hnn
    have hlow : -(2 ^ (offBits - 1) : Int) ≤ offset :=
      le_trans (neg_nonpos.mpr (by positivity)) hnn
    have hcast : narrow_cast_safe offBits offset = .ok offset := by
      simp [narrow_cast_safe, hlow, hfit]
    constructor <;> simp [FileFd.pwrite, FileFd.pread, hnl, hcast, hsys]

/-- Witness for C6 with a 32-bit off_t: offset -1 is rejected as a
validation error even on an empty handle; offset 2^31 does not fit and
yields the conversion error; offset 5 reaches the syscall unchanged. -/
theorem pio_offset_validation_witness :
    (FileFd.pwrite ⟨none⟩ 32 (-1) 0 0 =
        .proceeds (.validationError "Offset must be non-negative") ∧
      FileFd.pread ⟨none⟩ 32 (-1) 0 0 =
        .proceeds (.validationError "Offset must be non-negative")) ∧
    (FileFd.pwrite ⟨some sampleImpl⟩ 32 (2 ^ 31) 0 0 = .proceeds .castError ∧
      FileFd.pread ⟨some sampleImpl⟩ 32 (2 ^ 31) 0 0 = .proceeds .castError) ∧
    (FileFd.pwrite ⟨some sampleImpl⟩ 32 5 7 0 =
        .proceeds (.syscalled 5 (.ok (7 : Int).toNat)) ∧
      FileFd.pread ⟨some sampleImpl⟩ 32 5 7 0 =
        .proceeds (.syscalled 5 (.ok (7 : Int).toNat))) :=
  ⟨(pio_offset_validation ⟨none⟩ sampleImpl 32 (-1) 0 0).2.1 (by decide),
   (pio_offset_validation ⟨none⟩ sampleImpl 32 (2 ^ 31) 0 0).2.2.1 (by decide) (by decide),
   (pio_offset_validation ⟨none⟩ sampleImpl 32 5 7 0).2.2.2 (by decide) (by decide) (by decide)⟩

/-- With every attempt contended, the lock loop entered with `m + 1`
remaining tries makes `m + 1` attempts, sleeps 100 ms between consecutive
attempts (`m` sleeps in total) and ends in the dedicated contention error. -/
theorem lockLoop_all_contention (att : Nat → LockAttempt)
    (h : ∀ i, att i = .contention) :
    ∀ m i : Nat, lockLoop att (m + 1) i = ⟨.lockContention, m + 1, m * 100000⟩ := by
  intro m
  induction m with
  | zero =>
    intro i
    simp [lockLoop, h i]
  | succ k ih =>
    intro i
    simp [lockLoop, h i, ih (i + 1), Nat.succ_mul]

/-- The lock loop never makes more attempts than the tries it was given. -/
theorem lockLoop_attempts_le (att : Nat → LockAttempt) :
    ∀ m i : Nat, (lockLoop att (m + 1) i).attempts ≤ m + 1 := by
  intro m
  induction m with
  | zero =>
    intro i
    cases hA : att i <;> simp [lockLoop, hA]
  | succ k ih =>
    intro i
    cases hA : att i
    · simp [lockLoop, hA]
    · have := ih (i + 1)
      simp [lockLoop, hA]
      omega
    · simp [lockLoop, hA]

/-- Claim C4: under contention `lock` with `max_tries = 1` returns the
dedicated LockContention error after exactly one attempt and without
sleeping; with `max_tries > 1` it sleeps 100 ms between attempts and makes
exactly `max_tries` attempts when every one is contended — and never more
than `max_tries` attempts in any run — while any native failure other than
contention is returned immediately as an OSError after a single attempt,
without retry or sleep.  The contention result is a constructor distinct
from the generic OSError. -/
theorem lock_retry_semantics (impl : FileFdImpl) (att : Nat → LockAttempt)
    (max_tries : Int) (e : Nat) (hpos : 1 ≤ max_tries) :
    ((∀ i, att i = .contention) →
      FileFd.lock ⟨some impl⟩ att max_tries =
        .proceeds ⟨.lockContention, max_tries.toNat, (max_tries.toNat - 1) * 100000⟩) ∧
    (att 0 = .failure e →
      FileFd.lock ⟨some impl⟩ att max_tries = .proceeds ⟨.osError e, 1, 0⟩) ∧
    (∀ t : LockTrace, FileFd.lock ⟨some impl⟩ att max_tries = .proceeds t →
      t.attempts ≤ max_tries.toNat) ∧
    (LockResult.lockContention ≠ LockResult.osError e) := by
  have hnle : ¬ max_tries ≤ 0 := by omega
  obtain ⟨m, hm⟩ : ∃ m, max_tries.toNat = m + 1 :=
    ⟨max_tries.toNat - 1, by omega⟩
  refine ⟨?_, ?_, ?_, by simp⟩
  · intro hall
    simp only [FileFd.lock, if_neg hnle, hm]
    rw [lockLoop_all_contention att hall m 0]
    simp
  · intro hf
    simp only [FileFd.lock, if_neg hnle, hm]
    cases m with
    | zero => simp [lockLoop, hf]
    | succ k => simp [lockLoop, hf]
  · intro t ht
    simp only [FileFd.lock, if_neg hnle, hm] at ht
    have h2 : lockLoop att (m + 1) 0 = t := by
      injection ht
    rw [hm, ← h2]
    exact lockLoop_attempts_le att m 0

/-- Witness for C4: a lock held elsewhere with `max_tries = 1` yields
LockContention after one attempt and zero sleep; with `max_tries = 3` it
takes 3 attempts and two 100 ms sleeps; a non-contention native failure
(errno 22) is returned at once as an OSError. -/
theorem lock_retry_semantics_witness :
    FileFd.lock ⟨some sampleImpl⟩ (fun _ => .contention) 1 =
      .proceeds ⟨.lockContention, (1 : Int).toNat, ((1 : Int).toNat - 1) * 100000⟩ ∧
    FileFd.lock ⟨some sampleImpl⟩ (fun _ => .contention) 3 =
      .proceeds ⟨.lockContention, (3 : Int).toNat, ((3 : Int).toNat - 1) * 100000⟩ ∧
    FileFd.lock ⟨some sampleImpl⟩ (fun _ => .failure 22) 3 =
      .proceeds ⟨.osError 22, 1, 0⟩ :=
  ⟨(lock_retry_semantics sampleImpl (fun _ => .contention) 1 22 (by decide)).1
      (fun _ => rfl),
   (lock_retry_semantics sampleImpl (fun _ => .contention) 3 22 (by decide)).1
      (fun _ => rfl),
   (lock_retry_semantics sampleImpl (fun _ => .failure 22) 3 22 (by decide)).2.1 rfl⟩

/-- Claim C7 counterexample: `pwrite` validates the offset before touching
the handle (FileFd.cpp:270-273), so invoked on an empty handle with offset
-1 it returns an ordinary ValidationError result — it does not fail fast as
a contract violation, contrary to the claim's universal statement. -/
theorem empty_handle_pwrite_validates_first :
    FileFd.pwrite ⟨none⟩ 64 (-1) 0 0 =
      .proceeds (.validationError "Offset must be non-negative") ∧
    FileFd.pwrite ⟨none⟩ 64 (-1) 0 0 ≠ .contractViolation := by
  exact ⟨rfl, by decide⟩

/-- Claim C7 (amended): every operation of the interface invoked on an
empty handle fails fast as a contract violation — through the explicit
`CHECK(!empty())` in stat/sync/seek/truncate_to_current_position and through
the fatal dereference of the null `impl_` in read/write/pread/pwrite/lock —
except that argument validation precedes the handle access: `pwrite`/`pread`
with a negative offset and `lock` with a non-positive `max_tries` return a
ValidationError even on an empty handle.  In no case does an operation
silently no-op or proceed with an invalid native handle. -/
theorem empty_handle_operations_fail_fast (bufSize : Nat) (sysRes : Int)
    (e : Nat) (offBits : Nat) (offset : Int) (att : Nat → LockAttempt)
    (max_tries : Int) (position : Int) :
    FileFd.read ⟨none⟩ bufSize sysRes e = .contractViolation ∧
    FileFd.write ⟨none⟩ sysRes e = .contractViolation ∧
    (0 ≤ offset → FileFd.pwrite ⟨none⟩ offBits offset sysRes e = .contractViolation) ∧
    (0 ≤ offset → FileFd.pread ⟨none⟩ offBits offset sysRes e = .contractViolation) ∧
    (1 ≤ max_tries → FileFd.lock ⟨none⟩ att max_tries = .contractViolation) ∧
    FileFd.stat ⟨none⟩ = .contractViolation ∧
    FileFd.sync ⟨none⟩ sysRes = .contractViolation ∧
    FileFd.seek ⟨none⟩ offBits position sysRes = .contractViolation ∧
    FileFd.truncate_to_current_position ⟨none⟩ offBits position sysRes =
      .contractViolation ∧
    (offset < 0 →
      FileFd.pwrite ⟨none⟩ offBits offset sysRes e =
        .proceeds (.validationError "Offset must be non-negative") ∧
      FileFd.pread ⟨none⟩ offBits offset sysRes e =
        .proceeds (.validationError "Offset must be non-negative")) ∧
    (max_tries ≤ 0 →
      FileFd.lock ⟨none⟩ att max_tries = .proceeds ⟨.validationError, 0, 0⟩) := by
  refine ⟨rfl, rfl, ?_, ?_, ?_, rfl, rfl, rfl, rfl, ?_, ?_⟩
  · intro h
    simp [FileFd.pwrite, not_lt.mpr h]
  · intro h
    simp [FileFd.pread, not_lt.mpr h]
  · intro h
    have : ¬ max_tries ≤ 0 := by omega
    simp [FileFd.lock, this]
  · intro h
    constructor <;> simp [FileFd.pwrite, FileFd.pread, h]
  · intro h
    simp [FileFd.lock, h]

/-- Witness for the amended C7: concrete empty-handle invocations — a read,
a pwrite at offset 0, a lock with one try — abort as contract violations,
while pwrite at offset -1 and lock with zero tries return validation
errors. -/
theorem empty_handle_operations_fail_fast_witness :
    FileFd.read ⟨none⟩ 1 0 0 = .contractViolation ∧
    FileFd.pwrite ⟨none⟩ 64 0 0 0 = .contractViolation ∧
    FileFd.lock ⟨none⟩ (fun _ => .success) 1 = .contractViolation ∧
    FileFd.pwrite ⟨none⟩ 64 (-1) 0 0 =
      .proceeds (.validationError "Offset must be non-negative") ∧
    FileFd.lock ⟨none⟩ (fun _ => .success) 0 = .proceeds ⟨.validationError, 0, 0⟩ :=
  ⟨(empty_handle_operations_fail_fast 1 0 0 64 0 (fun _ => .success) 1 0).1,
   (empty_handle_operations_fail_fast 1 0 0 64 0 (fun _ => .success) 1 0).2.2.1
     (by decide),
   (empty_handle_operations_fail_fast 1 0 0 64 0 (fun _ => .success) 1 0).2.2.2.2.1
     (by decide),
   ((empty_handle_operations_fail_fast 1 0 0 64 (-1) (fun _ => .success) 0 0).2.2.2.2.2.2.2.2.2.1
     (by decide)).1,
   (empty_handle_operations_fail_fast 1 0 0 64 (-1) (fun _ => .success) 0 0).2.2.2.2.2.2.2.2.2.2
     (by decide)⟩

/-- Claim C2: for every valid flags value the translation to the native
creation disposition follows the matrix, its rows read in the order given
(the Create branch is tested before the CreateNew one, FileFd.cpp:160-174):
Create with Truncate maps to create-or-truncate; Create without Truncate to
create-or-open; CreateNew (without Create) to create-exclusive, which fails
if the target exists; neither Create nor CreateNew with Truncate to
truncate-existing-only; neither with no Truncate to open-existing-only —
both for the Windows `creation_disposition` and for the disposition denoted
by the translated POSIX flag word. -/
theorem open_disposition_matrix (flags : Nat)
    (_hvalid : hasUnknownBits flags = false ∧ flags &&& (Write ||| Read) ≠ 0) :
    (hasFlag flags Create = true → hasFlag flags Truncate = true →
      winCreationDisposition flags = .CREATE_ALWAYS ∧
      posixDisposition (posixNativeFlags flags) = .CREATE_ALWAYS) ∧
    (hasFlag flags Create = true → hasFlag flags Truncate = false →
      winCreationDisposition flags = .OPEN_ALWAYS ∧
      posixDisposition (posixNativeFlags flags) = .OPEN_ALWAYS) ∧
    (hasFlag flags Create = false → hasFlag flags CreateNew = true →
      winCreationDisposition flags = .CREATE_NEW ∧
      posixDisposition (posixNativeFlags flags) = .CREATE_NEW) ∧
    (hasFlag flags Create = false → hasFlag flags CreateNew = false →
      hasFlag flags Truncate = true →
      winCreationDisposition flags = .TRUNCATE_EXISTING ∧
      posixDisposition (posixNativeFlags flags) = .TRUNCATE_EXISTING) ∧
    (hasFlag flags Create = false → hasFlag flags CreateNew = false →
      hasFlag flags Truncate = false →
      winCreationDisposition flags = .OPEN_EXISTING ∧
      posixDisposition (posixNativeFlags flags) = .OPEN_EXISTING) := by
  cases hC : hasFlag flags Create <;> cases hN : hasFlag flags CreateNew <;>
    cases hT : hasFlag flags Truncate <;> cases hW : hasFlag flags Write <;>
    cases hR : hasFlag flags Read <;> cases hA : hasFlag flags Append <;>
    simp [winCreationDisposition, posixNativeFlags, hC, hN, hT, hW, hR, hA] <;>
    decide

/-- Witness for C2: the valid flags value Read|Create|Truncate (= 14) lands
in the first matrix row on both platforms. -/
theorem open_disposition_matrix_witness :
    winCreationDisposition 14 = .CREATE_ALWAYS ∧
      posixDisposition (posixNativeFlags 14) = .CREATE_ALWAYS :=
  (open_disposition_matrix 14 ⟨by decide, by decide⟩).1 (by decide) (by decide)

end td
